import Mathlib

/-!
Shallow embedding of the routing / safety / intent-classification core of the
llm-rag-chat-demo backend (`src/backend/{routing,safety,intent_classifier,
llm_cache,ask_handler,finance_quotes,small_talk}.py`), with theorems settling
the frozen claims about it.

Model calls to external LLMs and to the retrieval engine are abstracted by an
`Env` record giving the response of each collaborator (`none` = the invocation
raised), and every pipeline function additionally returns the list of model
invocations it performed, so that "X is never invoked" claims are statable.
-/

namespace RagDemo

/-! ## Python string primitives -/

/-- Whitespace characters stripped by Python `str.strip()` (ASCII fragment). -/
def isPySpace (c : Char) : Bool :=
  c = ' ' || c = '\t' || c = '\n' || c = '\r' || c = '\x0b' || c = '\x0c'

def pyStripList (l : List Char) : List Char :=
  ((l.dropWhile isPySpace).reverse.dropWhile isPySpace).reverse

/-- Python `str.strip()` with no arguments. -/
def pyStrip (s : String) : String :=
  ⟨pyStripList s.data⟩

/-- Split a character list at every character satisfying `p`, keeping empty
pieces (the list-level analogue of Python `str.split(sep)`). -/
def splitListOn (p : Char → Bool) : List Char → List Char → List (List Char)
  | [], acc => [acc.reverse]
  | c :: rest, acc =>
    if p c then acc.reverse :: splitListOn p rest [] else splitListOn p rest (c :: acc)

/-- Python `str.split()` with no arguments: split on whitespace runs, no empties. -/
def pySplitWS (s : String) : List String :=
  ((splitListOn isPySpace s.data []).filter (· ≠ [])).map (fun l => (⟨l⟩ : String))

/-- Python `str.split(",")`: split at commas, keeping empty pieces. -/
def pySplitComma (s : String) : List String :=
  (splitListOn (fun c => c = ',') s.data []).map (fun l => (⟨l⟩ : String))

/-- First index at which `needle` occurs in `hay` (Python `str.find`, found case). -/
def strFindIdx (hay needle : List Char) : Option Nat :=
  go hay 0
where
  go : List Char → Nat → Option Nat
    | l, i =>
      if needle.isPrefixOf l then some i
      else
        match l with
        | [] => none
        | _ :: rest => go rest (i + 1)

/-- Last index at which `needle` occurs in `hay` (Python `str.rfind`, found case). -/
def strRFindIdx (hay needle : List Char) : Option Nat :=
  go hay 0 none
where
  go : List Char → Nat → Option Nat → Option Nat
    | l, i, acc =>
      let acc := if needle.isPrefixOf l then some i else acc
      match l with
      | [] => acc
      | _ :: rest => go rest (i + 1) acc

/-- Python `str.replace(pat, "", 1)`: delete the first occurrence of `pat`. -/
def replaceFirst (l pat : List Char) : List Char :=
  match strFindIdx l pat with
  | some i => l.take i ++ l.drop (i + pat.length)
  | none => l

/-! ## A small backtracking regex engine

The `re.search` call with `re.IGNORECASE` from Python is modelled by a backtracking
matcher over the exact constructs the source patterns use.  Literal
characters are compared case-insensitively (patterns are written in
lowercase); character classes see the original character.  Alternation
prefers the left branch and `opt`/`star` are greedy, matching the CPython
backtracking order, so the single capturing group used by the source
patterns captures the same text CPython would.  `wb` is `\b`. -/

inductive RE where
  | eps : RE
  | lit : Char → RE
  | cls : (Char → Bool) → RE
  | seq : RE → RE → RE
  | alt : RE → RE → RE
  | opt : RE → RE
  | star : RE → RE
  | grp : RE → RE
  | wb : RE

/-- Python `\w` (ASCII fragment). -/
def isWordChar (c : Char) : Bool := c.isAlphanum || c = '_'

/-- `\b`: word-boundary between the previous character and the upcoming input. -/
def wbHolds (prev : Option Char) (rest : List Char) : Bool :=
  (match prev with | some c => isWordChar c | none => false)
    != (match rest with | c :: _ => isWordChar c | [] => false)

structure MState where
  rest : List Char
  prev : Option Char
  cap : Option (List Char)

/-- Fuel-indexed CPS backtracking matcher.  Success value is the capture of
group 1 (if any); `none` result is failure.  The fuel passed by `reSearchList`
is ample for the patterns of the source, which nest stars at most once. -/
def reM : Nat → RE → MState → (MState → Option (Option (List Char))) → Option (Option (List Char))
  | 0, _, _, _ => none
  | fuel + 1, r, st, k =>
    match r with
    | .eps => k st
    | .lit c =>
      match st.rest with
      | [] => none
      | x :: xs => if x.toLower = c then k ⟨xs, some x, st.cap⟩ else none
    | .cls p =>
      match st.rest with
      | [] => none
      | x :: xs => if p x then k ⟨xs, some x, st.cap⟩ else none
    | .seq a b => reM fuel a st (fun st1 => reM fuel b st1 k)
    | .alt a b =>
      match reM fuel a st k with
      | some res => some res
      | none => reM fuel b st k
    | .opt a =>
      match reM fuel a st k with
      | some res => some res
      | none => k st
    | .star a =>
      match reM fuel a st (fun st1 => reM fuel (.star a) st1 k) with
      | some res => some res
      | none => k st
    | .grp a =>
      reM fuel a st (fun st1 =>
        k ⟨st1.rest, st1.prev, some (st.rest.take (st.rest.length - st1.rest.length))⟩)
    | .wb => if wbHolds st.prev st.rest then k st else none

/-- `re.search`: try each start position left to right (leftmost match wins). -/
def reSearchList (r : RE) (fuel : Nat) : Option Char → List Char → Option (Option (List Char))
  | prev, rest =>
    match reM fuel r ⟨rest, prev, none⟩ (fun st => some st.cap) with
    | some res => some res
    | none =>
      match rest with
      | [] => none
      | c :: cs => reSearchList r fuel (some c) cs

def reFuel (s : String) : Nat := 2 * s.data.length + 200

/-- Does `re.search(r, s)` find a match? -/
def reTest (r : RE) (s : String) : Bool :=
  (reSearchList r (reFuel s) none s.data).isSome

/-- `re.search(r, s)` and return `match.group(1)`. -/
def reCapture (r : RE) (s : String) : Option String :=
  match reSearchList r (reFuel s) none s.data with
  | some (some cap) => some ⟨cap⟩
  | _ => none

/-! Pattern-building helpers (lowercase literal strings). -/

def rlit (s : String) : RE := s.data.foldr (fun c acc => .seq (.lit c) acc) .eps

def ralts : List RE → RE
  | [] => .eps
  | [r] => r
  | r :: rs => .alt r (ralts rs)

def rcat : List RE → RE
  | [] => .eps
  | [r] => r
  | r :: rs => .seq r (rcat rs)

/-- `\s` -/
def rws : RE := .cls isPySpace
/-- `\s*` -/
def rwsStar : RE := .star rws
/-- `\s+` -/
def rwsPlus : RE := .seq rws (.star rws)
/-- `.` (no DOTALL: anything but newline) -/
def rdot : RE := .cls (fun c => c ≠ '\n')
/-- `.*` -/
def rdotStar : RE := .star rdot
/-- `[A-Za-z]{1,5}` -/
def ralpha15 : RE :=
  let a : RE := .cls Char.isAlpha
  .seq a (.opt (.seq a (.opt (.seq a (.opt (.seq a (.opt a)))))))

/-! ## `finance_quotes.py`: ticker-symbol extraction -/

/-- `_SYMBOL_PATTERNS` from `finance_quotes.py` (group 1 is the symbol). -/
def symbolPatterns : List RE :=
  [ -- \b(?:price|quote)\s+(?:for|of)\s+([A-Za-z]{1,5})\b
    rcat [.wb, ralts [rlit "price", rlit "quote"], rwsPlus,
          ralts [rlit "for", rlit "of"], rwsPlus, .grp ralpha15, .wb],
    -- \b([A-Za-z]{1,5})\s+(?:stock|share)s?\s+(?:price|quote)\b
    rcat [.wb, .grp ralpha15, rwsPlus, ralts [rlit "stock", rlit "share"],
          .opt (.lit 's'), rwsPlus, ralts [rlit "price", rlit "quote"], .wb],
    -- \bticker\s+([A-Za-z]{1,5})\b
    rcat [.wb, rlit "ticker", rwsPlus, .grp ralpha15, .wb] ]

/-- `extract_symbol` from `finance_quotes.py`: first pattern that matches wins,
returning `match.group(1).upper()`. -/
def extract_symbol (user_text : String) : Option String :=
  go symbolPatterns
where
  go : List RE → Option String
    | [] => none
    | p :: ps =>
      match reCapture p user_text with
      | some sym => some ⟨sym.data.map Char.toUpper⟩
      | none => go ps

/-! ## Data model (`safety.py`, `intent_classifier.py`, `routing.py`, `schemas.py`) -/

inductive SafetySeverity where
  | low | medium | high
deriving DecidableEq, Repr

inductive SafetyVerdict where
  | allow | warn | block
deriving DecidableEq, Repr

/-- `StrEnum` value strings. -/
def SafetySeverity.value : SafetySeverity → String
  | .low => "low" | .medium => "medium" | .high => "high"

def SafetyVerdict.value : SafetyVerdict → String
  | .allow => "allow" | .warn => "warn" | .block => "block"

/-- `SafetyVerdict(s)` as a total function: `some` member on a known value,
`none` where CPython raises `ValueError`. -/
def parseSafetyVerdict (s : String) : Option SafetyVerdict :=
  if s = "allow" then some .allow
  else if s = "warn" then some .warn
  else if s = "block" then some .block
  else none

/-- `SafetySeverity(s)`, same convention as `parseSafetyVerdict`. -/
def parseSafetySeverity (s : String) : Option SafetySeverity :=
  if s = "low" then some .low
  else if s = "medium" then some .medium
  else if s = "high" then some .high
  else none

structure ModerationResult where
  verdict : SafetyVerdict
  severity : SafetySeverity
  categories : List String := []
  rationale : Option String := none
deriving DecidableEq, Repr

def ModerationResult.is_blocked (m : ModerationResult) : Bool :=
  m.verdict = SafetyVerdict.block

inductive IntentLabel where
  | qa | small_talk | finance_quote | search | memory_write | escalate | bad
deriving DecidableEq, Repr

def IntentLabel.value : IntentLabel → String
  | .qa => "qa" | .small_talk => "small_talk" | .finance_quote => "finance_quote"
  | .search => "search" | .memory_write => "memory_write"
  | .escalate => "escalate" | .bad => "bad"

/-- `IntentLabel(s)`: `some` member on a known value, `none` = `ValueError`. -/
def parseIntentLabel (s : String) : Option IntentLabel :=
  if s = "qa" then some .qa
  else if s = "small_talk" then some .small_talk
  else if s = "finance_quote" then some .finance_quote
  else if s = "search" then some .search
  else if s = "memory_write" then some .memory_write
  else if s = "escalate" then some .escalate
  else if s = "bad" then some .bad
  else none

structure IntentResult where
  intent : IntentLabel
  rationale : Option String := none
  raw_response : Option String := none
deriving DecidableEq, Repr

/-- `ModelId` from `schemas.py` (`DEFAULT = "mistral"` aliases `MISTRAL`). -/
inductive ModelId where
  | mistral | gpt_oss
deriving DecidableEq, Repr

def ModelId.value : ModelId → String
  | .mistral => "mistral" | .gpt_oss => "gpt-oss"

structure AskRequest where
  question : String
  model : ModelId := .mistral
deriving DecidableEq, Repr

/-! ## Collaborator environment and invocation trace -/

/-- One external model/engine invocation performed by the pipeline. -/
inductive ModelCall where
  | moderation      -- the `invoke` of the moderation LLM
  | classifier      -- the `invoke` of the intent-classifier LLM
  | smallTalkGen    -- the small-talk generation `invoke`
  | retrieval       -- `ask_engine.query`
deriving DecidableEq, Repr

/-- Responses of the external collaborators for one request.
`none` means the corresponding invocation raised an exception. -/
structure Env where
  /-- `get_moderation_llm` succeeded (else `RuntimeError` caught in `safety.py`). -/
  moderationLLMAvailable : Bool := true
  moderationOutput : Option String := none
  classifierOutput : Option String := none
  smallTalkOutput : Option String := none
  retrievalAnswer : String := ""
deriving DecidableEq, Repr

/-! ## `safety.py` -/

/-- `_BLOCK_PATTERNS`: compiled pattern, its Python source text (used in the
rationale f-string), and category tags. -/
def blockPatterns : List (RE × String × List String) :=
  [ (rcat [.wb, ralts [rlit "build", rlit "make", rlit "create"], .wb, rdotStar,
           .wb, ralts [rlit "bomb", rlit "explosive", rlit "weapon"], .wb],
     "\\b(?:build|make|create)\\b.*\\b(?:bomb|explosive|weapon)\\b", ["weapons"]),
    (rcat [.wb,
           ralts [.seq (rlit "instruction") (.opt (.lit 's')),
                  rcat [rlit "step", .opt (.cls (fun c => c = '-' || isPySpace c)),
                        rlit "by", .opt (.cls (fun c => c = '-' || isPySpace c)),
                        rlit "step"]],
           .wb, rdotStar, .wb, ralts [rlit "bomb", rlit "explosive", rlit "weapon"], .wb],
     "\\b(?:instructions?|step[-\\s]?by[-\\s]?step)\\b.*\\b(?:bomb|explosive|weapon)\\b",
     ["weapons"]),
    (rcat [.wb, ralts [rlit "kill", rlit "murder", rlit "suicide"], .wb],
     "\\b(?:kill|murder|suicide)\\b", ["violence"]),
    (rcat [.wb, ralts [rlit "credit card", rlit "ssn", rlit "social security number"], .wb],
     "\\b(?:credit card|ssn|social security number)\\b", ["privacy"]),
    (rcat [.wb, .opt (ralts [rlit "system", rlit "root", rlit "admin"]), rwsStar,
           rlit "password", .wb],
     "\\b(system|root|admin)?\\s*password\\b", ["privacy"]) ]

/-- `_WARN_PATTERNS`. -/
def warnPatterns : List (RE × String × List String) :=
  [ (rcat [.wb, ralts [rlit "hack", rlit "exploit"], .wb],
     "\\b(?:hack|exploit)\\b", ["questionable"]),
    (rcat [.wb, ralts [rlit "nsfw", rlit "explicit"], .wb],
     "\\b(?:nsfw|explicit)\\b", ["adult"]) ]

/-- `_run_pattern_filters`: block table first, then warn table, first hit wins. -/
def run_pattern_filters (user_text : String) : Option ModerationResult :=
  match blockPatterns.find? (fun p => reTest p.1 user_text) with
  | some (_, src, cats) =>
    some { verdict := .block, severity := .high, categories := cats,
           rationale := some ("Matched block pattern: " ++ src) }
  | none =>
    match warnPatterns.find? (fun p => reTest p.1 user_text) with
    | some (_, src, cats) =>
      some { verdict := .warn, severity := .medium, categories := cats,
             rationale := some ("Matched warn pattern: " ++ src) }
    | none => none

/-- `_extract_field`: `re.search(rf"{field_name}\s*:\s*(.+)", text, IGNORECASE)`,
`group(1).strip()` on a match, the given default otherwise.  The field names
passed by the source are lowercase. -/
def extract_field (text field_name : String) (dflt : Option String) : Option String :=
  match reCapture (rcat [rlit field_name, rwsStar, .lit ':', rwsStar,
                         .grp (.seq rdot rdotStar)]) text with
  | some cap => some (pyStrip cap)
  | none => dflt

/-- `_run_llm_moderation`: `None` when the moderation model is unavailable or
its invocation raises; otherwise field-by-field extraction with type-specific
defaults and `ValueError`-to-default coercion for the two enums. -/
def run_llm_moderation (env : Env) (_user_text _model_name : String) :
    Option ModerationResult × List ModelCall :=
  if env.moderationLLMAvailable then
    match env.moderationOutput with
    | none => (none, [.moderation])
    | some out =>
      let output := pyStrip out
      let verdict := (extract_field output "verdict" (some "")).getD ""
      let severity := (extract_field output "severity" (some "low")).getD "low"
      let categories :=
        (pySplitComma ((extract_field output "categories" (some "")).getD "")).filterMap
          (fun cat => if pyStrip cat ≠ "" then some (pyStrip cat) else none)
      let rationaleF := extract_field output "rationale" none
      let verdict_enum :=
        (parseSafetyVerdict (if verdict = "" then "allow" else verdict)).getD .allow
      let severity_enum :=
        (parseSafetySeverity (if severity = "" then "low" else severity)).getD .low
      (some { verdict := verdict_enum, severity := severity_enum,
              categories := categories, rationale := rationaleF },
       [.moderation])
  else (none, [])

/-- `run_safety_checks`: strip; blank input blocks immediately; heuristic
filters; model-backed moderation; default allow. -/
def run_safety_checks (env : Env) (user_text : String) (model_name : String) :
    ModerationResult × List ModelCall :=
  let user_text := pyStrip user_text
  if user_text = "" then
    ({ verdict := .block, severity := .high, rationale := some "Empty user input." }, [])
  else
    match run_pattern_filters user_text with
    | some m => (m, [])
    | none =>
      match run_llm_moderation env user_text model_name with
      | (some m, calls) => (m, calls)
      | (none, calls) =>
        ({ verdict := .allow, severity := .low,
           rationale := some "No safety issues detected." }, calls)

/-! ## `intent_classifier.py`: heuristics -/

/-- `_BAD_PATTERNS`. -/
def badPatterns : List RE :=
  [ rcat [.wb, .opt (ralts [rlit "system", rlit "root", rlit "admin"]), rwsStar,
          rlit "password", .wb],
    rcat [.wb, rlit "share", rwsPlus, ralts [rlit "your", rlit "the"], rwsPlus,
          ralts [rlit "credentials", rlit "password", rlit "secret"], .wb] ]

/-- `_SMALL_TALK_PATTERNS`. -/
def smallTalkPatterns : List RE :=
  [ rcat [.wb, ralts [rlit "hi", rlit "hello", rlit "hey", rlit "howdy"], .wb],
    rcat [.wb, ralts [rlit "how are you", rlit "what\x27s up", rlit "whats up"], .wb],
    rcat [.wb, ralts [.seq (rlit "thank") (ralts [rlit "s", rlit " you"]),
                      rlit "appreciate"], .wb] ]

/-- `_MEMORY_WRITE_PATTERNS`. -/
def memoryWritePatterns : List RE :=
  [ rcat [.wb, rlit "remember that", .wb],
    rcat [.wb, rlit "save ", ralts [rlit "this", rlit "that", rlit "my"], .wb] ]

/-- `_FINANCE_KEYWORD_PATTERNS`. -/
def financeKeywordPatterns : List RE :=
  [ rcat [.wb, ralts [rlit "stock", rlit "share"], .opt (.lit 's'), rwsPlus,
          ralts [rlit "price", rlit "quote"], .wb],
    rcat [.wb, ralts [rlit "price", rlit "quote"], rwsPlus,
          ralts [rlit "for", rlit "of"], rwsPlus, ralpha15, .wb],
    rcat [.wb, rlit "ticker", .wb] ]

/-- `_SEARCH_PATTERNS`. -/
def searchPatterns : List RE :=
  [ rcat [.wb, rlit "google", .wb],
    rcat [.wb, rlit "search for", .wb],
    rcat [.wb, rlit "look up", .wb] ]

def badPatternsMatch (s : String) : Bool := badPatterns.any (reTest · s)
def smallTalkPatternsMatch (s : String) : Bool := smallTalkPatterns.any (reTest · s)
def memoryWritePatternsMatch (s : String) : Bool := memoryWritePatterns.any (reTest · s)
def searchPatternsMatch (s : String) : Bool := searchPatterns.any (reTest · s)
def financeKeywordsMatch (s : String) : Bool := financeKeywordPatterns.any (reTest · s)

/-- The short-question fallback rule:
`len(user_text.split()) <= 3 and user_text.endswith("?")`. -/
def shortQuestion (s : String) : Bool :=
  (pySplitWS s).length ≤ 3 && s.data.getLast? = some '?'

/-- `_run_heuristics`: ordered rule groups, first match wins; `none` when
inconclusive. -/
def run_heuristics (user_text : String) : Option IntentResult :=
  if badPatternsMatch user_text then
    some { intent := .bad, rationale := some "Credential harvesting attempt." }
  else if smallTalkPatternsMatch user_text then
    some { intent := .small_talk, rationale := some "Greeting detected." }
  else if memoryWritePatternsMatch user_text then
    some { intent := .memory_write,
           rationale := some "User requested to remember information." }
  else if searchPatternsMatch user_text then
    some { intent := .search, rationale := some "Explicit search request." }
  else if (extract_symbol user_text).isSome && financeKeywordsMatch user_text then
    some { intent := .finance_quote,
           rationale := some ("Finance quote request detected for "
                              ++ (extract_symbol user_text).getD "" ++ ".") }
  else if shortQuestion user_text then
    some { intent := .small_talk, rationale := some "Short question likely chit-chat." }
  else
    none

/-! ## `json.loads` (the fragment exercised by the classifier) -/

inductive JValue where
  | null : JValue
  | bool : Bool → JValue
  | num : Int → JValue
  | str : String → JValue
  | arr : List JValue → JValue
  | obj : List (String × JValue) → JValue

def jskipWs (l : List Char) : List Char :=
  l.dropWhile (fun c => c = ' ' || c = '\t' || c = '\n' || c = '\r')

/-- JSON string body after the opening quote; handles the simple escapes.
(`\uXXXX` escapes are outside the modelled fragment.) -/
def parseJStr : Nat → List Char → Option (List Char × List Char)
  | 0, _ => none
  | _ + 1, [] => none
  | _ + 1, '"' :: rest => some ([], rest)
  | fuel + 1, '\\' :: c :: rest =>
    let esc : Option Char :=
      if c = 'n' then some '\n' else if c = 't' then some '\t'
      else if c = 'r' then some '\r' else if c = 'b' then some '\x08'
      else if c = 'f' then some '\x0c' else if c = '"' then some '"'
      else if c = '\\' then some '\\' else if c = '/' then some '/'
      else none
    match esc with
    | some e => (parseJStr fuel rest).map (fun p => (e :: p.1, p.2))
    | none => none
  | fuel + 1, c :: rest => (parseJStr fuel rest).map (fun p => (c :: p.1, p.2))

def parseJDigits (l : List Char) : Option (Nat × List Char) :=
  let ds := l.takeWhile Char.isDigit
  if ds = [] then none
  else some (ds.foldl (fun acc c => 10 * acc + (c.toNat - 48)) 0, l.drop ds.length)

/-- Parsing mode: a single value, the items of an array (after `[`, known
non-empty), or the members of an object (after `{`, known non-empty).  A
single mode-indexed function keeps the recursion structural on the fuel, so
the parser reduces definitionally. -/
inductive JMode where
  | value | items | members

/-- Recursive-descent JSON parser.  In `items` mode the result is `.arr` of
the parsed items (consuming the closing `]`), in `members` mode `.obj` of the
parsed members (consuming `}`).  Numbers cover integers only: a following
`.`/`e`/`E` (a float, which CPython would accept) is outside the modelled
fragment and fails the parse. -/
def parseJ : Nat → JMode → List Char → Option (JValue × List Char)
  | 0, _, _ => none
  | fuel + 1, .value, l =>
    match jskipWs l with
    | 'n' :: 'u' :: 'l' :: 'l' :: rest => some (.null, rest)
    | 't' :: 'r' :: 'u' :: 'e' :: rest => some (.bool true, rest)
    | 'f' :: 'a' :: 'l' :: 's' :: 'e' :: rest => some (.bool false, rest)
    | '"' :: rest => (parseJStr fuel rest).map (fun p => (.str ⟨p.1⟩, p.2))
    | '[' :: rest =>
      (match jskipWs rest with
       | ']' :: rest1 => some (.arr [], rest1)
       | l1 => parseJ fuel .items l1)
    | '{' :: rest =>
      (match jskipWs rest with
       | '}' :: rest1 => some (.obj [], rest1)
       | l1 => parseJ fuel .members l1)
    | '-' :: rest =>
      (parseJDigits rest).bind (fun p =>
        match p.2 with
        | '.' :: _ => none | 'e' :: _ => none | 'E' :: _ => none
        | _ => some (.num (-(p.1 : Int)), p.2))
    | l1 =>
      (parseJDigits l1).bind (fun p =>
        match p.2 with
        | '.' :: _ => none | 'e' :: _ => none | 'E' :: _ => none
        | _ => some (.num (p.1 : Int), p.2))
  | fuel + 1, .items, l =>
    (parseJ fuel .value l).bind (fun p =>
      match jskipWs p.2 with
      | ',' :: rest =>
        (parseJ fuel .items rest).bind (fun q =>
          match q.1 with
          | .arr xs => some (.arr (p.1 :: xs), q.2)
          | _ => none)
      | ']' :: rest => some (.arr [p.1], rest)
      | _ => none)
  | fuel + 1, .members, l =>
    match jskipWs l with
    | '"' :: rest =>
      (parseJStr fuel rest).bind (fun kp =>
        match jskipWs kp.2 with
        | ':' :: rest1 =>
          (parseJ fuel .value rest1).bind (fun vp =>
            match jskipWs vp.2 with
            | ',' :: rest2 =>
              (parseJ fuel .members rest2).bind (fun q =>
                match q.1 with
                | .obj ms => some (.obj ((⟨kp.1⟩, vp.1) :: ms), q.2)
                | _ => none)
            | '}' :: rest2 => some (.obj [(⟨kp.1⟩, vp.1)], rest2)
            | _ => none)
        | _ => none)
    | _ => none

/-- `json.loads`: parse one value and require only whitespace after it. -/
def json_loads (s : String) : Option JValue :=
  match parseJ (s.data.length + 10) .value s.data with
  | some (v, rest) => if jskipWs rest = [] then some v else none
  | none => none

/-- Python `dict.get` on a decoded object (duplicate keys: last wins, as in
the CPython `json` module). -/
def jGet (fields : List (String × JValue)) (key : String) : Option JValue :=
  fields.foldl (fun acc kv => if kv.1 = key then some kv.2 else acc) none

/-! ## `_extract_json` and the model-backed classifier -/

def tripleBacktick : List Char := "```".data

/-- `_extract_json` from `intent_classifier.py`, transliterated:
`find`/`rfind` of the fence, slice, `replace("json", "", 1)`, `strip`,
falling back to the unchanged text. -/
def extract_json (response_text : String) : String :=
  let l := response_text.data
  match strFindIdx l tripleBacktick with
  | none => response_text
  | some start =>
    let stop := (strRFindIdx l tripleBacktick).getD start
    if start < stop then
      let candidate := (l.take stop).drop (start + 3)
      let candidate := pyStripList (replaceFirst candidate "json".data)
      if candidate ≠ [] then ⟨candidate⟩ else response_text
    else response_text

/-- The Python exceptions that can escape the modelled code. -/
inductive PyErr where
  | attributeError
deriving DecidableEq, Repr

/-- `_run_llm_classifier`.  `Except` models the uncaught `AttributeError`
raised by `parsed.get("intent")` when `json.loads` decodes a non-object. -/
def run_llm_classifier (env : Env) (_user_text _model_name : String) :
    Except PyErr (Option IntentResult) × List ModelCall :=
  match env.classifierOutput with
  | none => (.ok none, [.classifier])   -- invocation failed: logged, return None
  | some raw0 =>
    let raw_text := pyStrip raw0
    match json_loads (extract_json raw_text) with
    | none => (.ok none, [.classifier])   -- json.JSONDecodeError caught
    | some (.obj fields) =>
      let rationaleV :=
        match jGet fields "rationale" with
        | some v => v
        | none => (jGet fields "reason").getD .null
      let rationaleS : Option String :=
        match rationaleV with | .str s => some s | _ => none
      (match jGet fields "intent" with
       | some (.str s) =>
         (match parseIntentLabel s with
          | some lbl =>
            (.ok (some { intent := lbl, rationale := rationaleS,
                         raw_response := some raw_text }), [.classifier])
          | none => (.ok none, [.classifier]))   -- ValueError caught
       | _ => (.ok none, [.classifier]))         -- IntentLabel(None/non-str): ValueError caught
    | some _ => (.error .attributeError, [.classifier])  -- non-dict: `.get` raises

/-- `classify_intent`: strip; blank input is `bad`; heuristics; model-backed
classifier; default `qa`. -/
def classify_intent (env : Env) (user_text : String) (model_name : String) :
    Except PyErr IntentResult × List ModelCall :=
  let user_text := pyStrip user_text
  if user_text = "" then
    (.ok { intent := .bad, rationale := some "Empty input." }, [])
  else
    match run_heuristics user_text with
    | some r => (.ok r, [])
    | none =>
      match run_llm_classifier env user_text model_name with
      | (.ok (some r), calls) => (.ok r, calls)
      | (.ok none, calls) =>
        (.ok { intent := .qa,
               rationale := some "Fallback default after classifier failure." }, calls)
      | (.error e, calls) => (.error e, calls)

/-! ## `llm_cache.py`

`functools.lru_cache(maxsize=MAX_SIZE)` is modelled as an explicit
most-recently-used-first association list.  Constructed handles are numbered
by a process-wide counter, so two handles are "the same object" exactly when
they carry the same number. -/

def MAX_SIZE : Nat := 4
def CONTEXT_LENGTH : Nat := 2048

/-- One `lru_cache` lookup: on a hit move the entry to the front and return
its handle (constructed = false); on a miss construct `fresh`, insert it in
front and keep at most `maxSize` entries (evicting the least recently used). -/
def lruGet {K : Type} [DecidableEq K] (maxSize : Nat) (c : List (K × Nat))
    (key : K) (fresh : Nat) : Nat × List (K × Nat) × Bool :=
  match c.find? (fun e => e.1 = key) with
  | some e => (e.2, e :: c.filter (fun e1 => ¬e1.1 = key), false)
  | none => (fresh, ((key, fresh) :: c).take maxSize, true)

/-- Cache key of the two `lru_cache`-decorated constructors:
`(model_name, temperature, num_ctx)`. -/
abbrev LLMKey : Type := String × ℚ × Nat

structure LLMCacheState where
  ollamaCache : List (LLMKey × Nat) := []
  langchainCache : List (LLMKey × Nat) := []
  nextHandle : Nat := 0
deriving DecidableEq, Repr

/-- `get_ollama_llm` (`@lru_cache(maxsize=MAX_SIZE)`): the generation client. -/
def get_ollama_llm (st : LLMCacheState) (model_name : String) (temperature : ℚ)
    (num_ctx : Nat) : Nat × LLMCacheState :=
  let r := lruGet MAX_SIZE st.ollamaCache (model_name, temperature, num_ctx) st.nextHandle
  (r.1, { ollamaCache := r.2.1, langchainCache := st.langchainCache,
          nextHandle := if r.2.2 then st.nextHandle + 1 else st.nextHandle })

/-- `get_langchain_llm` (`@lru_cache(maxsize=MAX_SIZE)`): the chat-capable
client (`LangChainLLM(ChatOllama(...))`). -/
def get_langchain_llm (st : LLMCacheState) (model_name : String) (temperature : ℚ)
    (num_ctx : Nat) : Nat × LLMCacheState :=
  let r := lruGet MAX_SIZE st.langchainCache (model_name, temperature, num_ctx) st.nextHandle
  (r.1, { ollamaCache := st.ollamaCache, langchainCache := r.2.1,
          nextHandle := if r.2.2 then st.nextHandle + 1 else st.nextHandle })

/-- `get_query_engine`: builds `rag_index.as_query_engine(llm=get_ollama_llm(
model_name), ...)` — a fresh engine object on every call, wrapping the cached
client.  Result is `(engine handle, llm handle)`. -/
def get_query_engine (st : LLMCacheState) (model_name : String) :
    (Nat × Nat) × LLMCacheState :=
  let r := get_ollama_llm st model_name 0 CONTEXT_LENGTH
  ((r.2.nextHandle, r.1),
   { ollamaCache := r.2.ollamaCache, langchainCache := r.2.langchainCache,
     nextHandle := r.2.nextHandle + 1 })

/-- `get_chat_engine`: `ContextChatEngine.from_defaults(...)` — likewise a
fresh engine each call over the cached chat-capable client. -/
def get_chat_engine (st : LLMCacheState) (model_name : String) :
    (Nat × Nat) × LLMCacheState :=
  let r := get_langchain_llm st model_name (2/10) CONTEXT_LENGTH
  ((r.2.nextHandle, r.1),
   { ollamaCache := r.2.ollamaCache, langchainCache := r.2.langchainCache,
     nextHandle := r.2.nextHandle + 1 })

/-! ## `routing.py` -/

structure RoutingDecision where
  intent : IntentLabel
  moderation : ModerationResult
  should_refuse : Bool
  should_escalate : Bool
  rationale : Option String := none
deriving DecidableEq, Repr

def RoutingDecision.render_refusal_response (d : RoutingDecision) : String :=
  if d.moderation.is_blocked then
    "I\x27m sorry, but I can\x27t assist with that request."
  else
    "I\x27m sorry, but I can\x27t comply with that request."

def RoutingDecision.render_escalation_response (_d : RoutingDecision) : String :=
  "This request may require a human assistant. I\x27ve forwarded the details."

/-- The refusal condition exactly as written in `analyze_message`:
`intent == BAD or (verdict == WARN and intent == BAD)`. -/
def should_refuse_impl (intent : IntentLabel) (verdict : SafetyVerdict) : Bool :=
  decide (intent = .bad) || (decide (verdict = .warn) && decide (intent = .bad))

/-- The simplified condition the spec says the implemented one is equal to:
refuse exactly when intent is `bad`. -/
def should_refuse_simplified (intent : IntentLabel) : Bool :=
  decide (intent = .bad)

/-- `analyze_message`: moderation first; a blocked verdict is terminal with
intent forced to `bad`; otherwise classification determines the decision. -/
def analyze_message (env : Env) (user_text : String) (model_name : String) :
    Except PyErr (RoutingDecision × List ModelCall) :=
  let m := run_safety_checks env user_text model_name
  if m.1.is_blocked then
    .ok ({ intent := .bad, moderation := m.1, should_refuse := true,
           should_escalate := false, rationale := m.1.rationale }, m.2)
  else
    match classify_intent env user_text model_name with
    | (.ok ir, ccalls) =>
      .ok ({ intent := ir.intent, moderation := m.1,
             should_refuse := should_refuse_impl ir.intent m.1.verdict,
             should_escalate := decide (ir.intent = .escalate),
             rationale := ir.rationale }, m.2 ++ ccalls)
    | (.error e, _) => .error e

structure ModerationPayload where
  verdict : String
  severity : String
  categories : List String
  rationale : Option String
deriving DecidableEq, Repr

structure ResponsePayload where
  answer : String
  intent : String
  moderation : ModerationPayload
  routing_rationale : Option String
deriving DecidableEq, Repr

/-- `build_response_payload`. -/
def build_response_payload (answer : String) (decision : RoutingDecision) :
    ResponsePayload :=
  { answer := answer,
    intent := decision.intent.value,
    moderation := { verdict := decision.moderation.verdict.value,
                    severity := decision.moderation.severity.value,
                    categories := decision.moderation.categories,
                    rationale := decision.moderation.rationale },
    routing_rationale := decision.rationale }

/-! ## `small_talk.py` and `ask_handler.py` -/

/-- `generate_small_talk_response`: one generation `invoke`, canned fallback
on any exception. -/
def generate_small_talk_response (env : Env) (_user_text _model_name : String) :
    String × List ModelCall :=
  match env.smallTalkOutput with
  | some out => (pyStrip out, [.smallTalkGen])
  | none => ("Hi there! How can I help you today?", [.smallTalkGen])

/-- `process_ask`: analyze, then dispatch on the decision; refusal and
escalation and the memory stub return without further collaborator calls;
small talk generates; everything else retrieves. -/
def process_ask (env : Env) (request : AskRequest) :
    Except PyErr (ResponsePayload × List ModelCall) :=
  match analyze_message env request.question request.model.value with
  | .error e => .error e
  | .ok (decision, tr) =>
    if decision.should_refuse then
      .ok (build_response_payload decision.render_refusal_response decision, tr)
    else if decision.should_escalate then
      .ok (build_response_payload decision.render_escalation_response decision, tr)
    else if decision.intent = .small_talk then
      let g := generate_small_talk_response env request.question request.model.value
      .ok (build_response_payload g.1 decision, tr ++ g.2)
    else if decision.intent = .memory_write then
      .ok (build_response_payload
             "I\x27ll remember that for later once memory storage is enabled." decision, tr)
    else
      .ok (build_response_payload env.retrievalAnswer decision, tr ++ [.retrieval])

/-! ## Definitions modelled from claim wording (for refutation only)

These two follow the words of claims C5 and C7, to be compared with the
definitions above that were translated from the source. -/

/-- The response-parsing step as claim C5 words it: strip a single pair of
fence markers when present, case-insensitively dropping a leading "json" tag
inside the fence, and leave the text unchanged otherwise. -/
def extract_json_claimed (response_text : String) : String :=
  let l := response_text.data
  match strFindIdx l tripleBacktick with
  | none => response_text
  | some start =>
    let stop := (strRFindIdx l tripleBacktick).getD start
    if start < stop then
      let inner := pyStripList ((l.take stop).drop (start + 3))
      let inner :=
        if (inner.take 4).map Char.toLower = "json".data then
          pyStripList (inner.drop 4)
        else inner
      if inner ≠ [] then ⟨inner⟩ else response_text
    else response_text

/-- Field extraction as claim C7 words it: a line-prefix pattern — the field
name, colon and value matched from the start of a line. -/
def extract_field_line_anchored (text field_name : String) (dflt : Option String) :
    Option String :=
  go ((splitListOn (fun c => c = '\n') text.data []).map (fun l => (⟨l⟩ : String)))
where
  go : List String → Option String
    | [] => dflt
    | line :: rest =>
      match reM (reFuel line)
          (rcat [rlit field_name, rwsStar, .lit ':', rwsStar, .grp (.seq rdot rdotStar)])
          ⟨line.data, none, none⟩ (fun st => some st.cap) with
      | some (some cap) => some (pyStrip ⟨cap⟩)
      | _ => go rest

/-! ## Helper lemmas -/

theorem run_llm_moderation_calls (env : Env) (u m : String) :
    (run_llm_moderation env u m).2 = [] ∨ (run_llm_moderation env u m).2 = [.moderation] := by
  unfold run_llm_moderation
  by_cases h : env.moderationLLMAvailable
  · simp only [h, if_true]
    cases env.moderationOutput <;> simp
  · simp [h]

theorem run_safety_checks_calls (env : Env) (u m : String) :
    (run_safety_checks env u m).2 = [] ∨ (run_safety_checks env u m).2 = [.moderation] := by
  unfold run_safety_checks
  by_cases h : pyStrip u = ""
  · simp [h]
  · simp only [h, if_false]
    cases hp : run_pattern_filters (pyStrip u) with
    | some r => simp
    | none =>
      simp only []
      have := run_llm_moderation_calls env (pyStrip u) m
      rcases hm : run_llm_moderation env (pyStrip u) m with ⟨_ | r, calls⟩ <;>
        rw [hm] at this <;> simpa using this

theorem run_llm_classifier_calls (env : Env) (u m : String) :
    (run_llm_classifier env u m).2 = [.classifier] := by
  unfold run_llm_classifier
  cases env.classifierOutput with
  | none => rfl
  | some out =>
    simp only []
    split
    any_goals rfl
    split
    any_goals rfl
    split <;> rfl

theorem classify_intent_calls (env : Env) (u m : String) :
    (classify_intent env u m).2 = [] ∨ (classify_intent env u m).2 = [.classifier] := by
  unfold classify_intent
  by_cases h : pyStrip u = ""
  · simp [h]
  · simp only [h, if_false]
    cases hh : run_heuristics (pyStrip u) with
    | some r => simp
    | none =>
      simp only []
      have hcalls := run_llm_classifier_calls env (pyStrip u) m
      rcases hc : run_llm_classifier env (pyStrip u) m with ⟨rr, calls⟩
      rw [hc] at hcalls
      cases rr with
      | error e => simp_all
      | ok orr => cases orr <;> simp_all

theorem analyze_message_calls (env : Env) (u m : String) (d : RoutingDecision)
    (tr : List ModelCall) (h : analyze_message env u m = .ok (d, tr)) :
    ∀ c ∈ tr, c = ModelCall.moderation ∨ c = ModelCall.classifier := by
  unfold analyze_message at h
  by_cases hb : (run_safety_checks env u m).1.is_blocked = true
  · rw [if_pos hb] at h
    simp only [Except.ok.injEq, Prod.mk.injEq] at h
    obtain ⟨-, htr⟩ := h
    subst htr
    intro c hcm
    rcases run_safety_checks_calls env u m with hs | hs <;> rw [hs] at hcm <;> simp_all
  · rw [if_neg hb] at h
    rcases hcl : classify_intent env u m with ⟨rr, ccalls⟩
    rw [hcl] at h
    cases rr with
    | error e => simp at h
    | ok ir =>
      simp only [Except.ok.injEq, Prod.mk.injEq] at h
      obtain ⟨-, htr⟩ := h
      subst htr
      intro c hcm
      rcases List.mem_append.mp hcm with hmem | hmem
      · rcases run_safety_checks_calls env u m with hs | hs <;> rw [hs] at hmem <;> simp_all
      · have hcc := classify_intent_calls env u m
        rw [hcl] at hcc
        rcases hcc with hs | hs <;> simp only [] at hs <;> rw [hs] at hmem <;> simp_all

/-! ## Claim theorems -/

/-- C9: when the moderation verdict is not `block`, the refusal condition as
implemented in `analyze_message` — `(intent == bad) or (verdict == warn and
intent == bad)` — is equal to the simplified condition `intent == bad`, for
every intent. -/
theorem refusal_condition_redundant_clause_equiv (intent : IntentLabel)
    (verdict : SafetyVerdict) (h : verdict ≠ SafetyVerdict.block) :
    should_refuse_impl intent verdict = should_refuse_simplified intent := by
  cases intent <;> cases verdict <;>
    simp_all [should_refuse_impl, should_refuse_simplified]

theorem refusal_condition_redundant_clause_equiv_witness :
    should_refuse_impl IntentLabel.bad SafetyVerdict.warn =
      should_refuse_simplified IntentLabel.bad :=
  refusal_condition_redundant_clause_equiv IntentLabel.bad SafetyVerdict.warn (by decide)

/-- C3: for every empty or whitespace-only utterance, `run_safety_checks`
returns verdict `block` with severity `high` immediately and performs no
model invocation at all, and `analyze_message` then returns the terminal
blocked decision with an empty invocation trace — in particular neither the
model-backed moderator nor the classifier is ever invoked. -/
theorem blank_input_blocks_without_model_invocation (env : Env) (u m : String)
    (h : pyStrip u = "") :
    run_safety_checks env u m =
      ({ verdict := .block, severity := .high, categories := [],
         rationale := some "Empty user input." }, [])
    ∧ analyze_message env u m =
      .ok ({ intent := .bad,
             moderation := { verdict := .block, severity := .high, categories := [],
                             rationale := some "Empty user input." },
             should_refuse := true, should_escalate := false,
             rationale := some "Empty user input." }, []) := by
  have hs : run_safety_checks env u m =
      ({ verdict := .block, severity := .high, categories := [],
         rationale := some "Empty user input." }, []) := by
    unfold run_safety_checks
    rw [h]
    rfl
  refine ⟨hs, ?_⟩
  unfold analyze_message
  rw [hs]
  rfl

theorem blank_input_blocks_without_model_invocation_witness :
    run_safety_checks ({} : Env) " \t\n " "mistral" =
      ({ verdict := .block, severity := .high, categories := [],
         rationale := some "Empty user input." }, [])
    ∧ analyze_message ({} : Env) " \t\n " "mistral" =
      .ok ({ intent := .bad,
             moderation := { verdict := .block, severity := .high, categories := [],
                             rationale := some "Empty user input." },
             should_refuse := true, should_escalate := false,
             rationale := some "Empty user input." }, []) :=
  blank_input_blocks_without_model_invocation ({} : Env) " \t\n " "mistral" (by decide)

/-- C1: whenever moderation returns verdict `block`, `analyze_message` is
terminal: intent is forced to `bad`, `should_refuse = true`,
`should_escalate = false`, and the classifier is never invoked — regardless
of what any classification would have produced (the statement holds for every
environment, i.e. for every classifier outcome). -/
theorem blocked_verdict_forces_terminal_refusal (env : Env) (u m : String)
    (h : (run_safety_checks env u m).1.is_blocked = true) :
    analyze_message env u m =
      .ok ({ intent := .bad, moderation := (run_safety_checks env u m).1,
             should_refuse := true, should_escalate := false,
             rationale := (run_safety_checks env u m).1.rationale },
           (run_safety_checks env u m).2)
    ∧ ModelCall.classifier ∉ (run_safety_checks env u m).2 := by
  constructor
  · unfold analyze_message
    rw [if_pos h]
  · rcases run_safety_checks_calls env u m with hs | hs <;> rw [hs] <;> simp

theorem blocked_verdict_forces_terminal_refusal_witness :
    (run_safety_checks ({} : Env) "" "mistral").1.is_blocked = true
    ∧ (analyze_message ({} : Env) "" "mistral" =
        .ok ({ intent := .bad, moderation := (run_safety_checks ({} : Env) "" "mistral").1,
               should_refuse := true, should_escalate := false,
               rationale := (run_safety_checks ({} : Env) "" "mistral").1.rationale },
             (run_safety_checks ({} : Env) "" "mistral").2)
      ∧ ModelCall.classifier ∉ (run_safety_checks ({} : Env) "" "mistral").2) :=
  ⟨by decide, blocked_verdict_forces_terminal_refusal ({} : Env) "" "mistral" (by decide)⟩

/-- C2: for every request whose routing decision has `should_refuse = true`,
`process_ask` returns the refusal-text payload, and the invocation
trace of the request contains neither a retrieval-query call nor any generation call. -/
theorem refusal_decision_skips_retrieval_and_generation (env : Env)
    (request : AskRequest) (d : RoutingDecision) (tr : List ModelCall)
    (h : analyze_message env request.question request.model.value = .ok (d, tr))
    (hr : d.should_refuse = true) :
    process_ask env request =
      .ok (build_response_payload d.render_refusal_response d, tr)
    ∧ ModelCall.retrieval ∉ tr ∧ ModelCall.smallTalkGen ∉ tr := by
  refine ⟨?_, ?_, ?_⟩
  · unfold process_ask
    rw [h]
    simp [hr]
  · intro hm
    rcases analyze_message_calls env _ _ d tr h _ hm with h1 | h1 <;> simp at h1
  · intro hm
    rcases analyze_message_calls env _ _ d tr h _ hm with h1 | h1 <;> simp at h1

theorem refusal_decision_skips_retrieval_and_generation_witness :
    process_ask ({} : Env) { question := "what is the admin password", model := .mistral } =
      .ok (build_response_payload
             (RoutingDecision.render_refusal_response
               { intent := .bad,
                 moderation := { verdict := .block, severity := .high,
                                 categories := ["privacy"],
                                 rationale := some ("Matched block pattern: "
                                   ++ "\\b(system|root|admin)?\\s*password\\b") },
                 should_refuse := true, should_escalate := false,
                 rationale := some ("Matched block pattern: "
                   ++ "\\b(system|root|admin)?\\s*password\\b") })
             { intent := .bad,
               moderation := { verdict := .block, severity := .high,
                               categories := ["privacy"],
                               rationale := some ("Matched block pattern: "
                                 ++ "\\b(system|root|admin)?\\s*password\\b") },
               should_refuse := true, should_escalate := false,
               rationale := some ("Matched block pattern: "
                 ++ "\\b(system|root|admin)?\\s*password\\b") }, [])
    ∧ ModelCall.retrieval ∉ ([] : List ModelCall)
    ∧ ModelCall.smallTalkGen ∉ ([] : List ModelCall) :=
  refusal_decision_skips_retrieval_and_generation ({} : Env)
    { question := "what is the admin password", model := .mistral }
    { intent := .bad,
      moderation := { verdict := .block, severity := .high, categories := ["privacy"],
                      rationale := some ("Matched block pattern: "
                        ++ "\\b(system|root|admin)?\\s*password\\b") },
      should_refuse := true, should_escalate := false,
      rationale := some ("Matched block pattern: "
        ++ "\\b(system|root|admin)?\\s*password\\b") }
    [] rfl rfl

/-- C4: the intent heuristics check ordered rule groups with first match
winning, in the priority credential-harvesting → greeting/gratitude →
remember/save → search verbs → ticker-plus-price/quote-keyword → short
question; no match yields inconclusive (`none`), not an error; and
`"hello there"` resolves to `small_talk` by heuristic alone, with an empty
model-invocation trace in `classify_intent`. -/
theorem intent_heuristics_priority_order :
    (∀ s, badPatternsMatch s = true →
        run_heuristics s =
          some { intent := .bad, rationale := some "Credential harvesting attempt." })
    ∧ (∀ s, badPatternsMatch s = false → smallTalkPatternsMatch s = true →
        run_heuristics s =
          some { intent := .small_talk, rationale := some "Greeting detected." })
    ∧ (∀ s, badPatternsMatch s = false → smallTalkPatternsMatch s = false →
        memoryWritePatternsMatch s = true →
        run_heuristics s =
          some { intent := .memory_write,
                 rationale := some "User requested to remember information." })
    ∧ (∀ s, badPatternsMatch s = false → smallTalkPatternsMatch s = false →
        memoryWritePatternsMatch s = false → searchPatternsMatch s = true →
        run_heuristics s =
          some { intent := .search, rationale := some "Explicit search request." })
    ∧ (∀ s sym, badPatternsMatch s = false → smallTalkPatternsMatch s = false →
        memoryWritePatternsMatch s = false → searchPatternsMatch s = false →
        extract_symbol s = some sym → financeKeywordsMatch s = true →
        run_heuristics s =
          some { intent := .finance_quote,
                 rationale := some ("Finance quote request detected for " ++ sym ++ ".") })
    ∧ (∀ s, badPatternsMatch s = false → smallTalkPatternsMatch s = false →
        memoryWritePatternsMatch s = false → searchPatternsMatch s = false →
        ((extract_symbol s).isSome && financeKeywordsMatch s) = false →
        shortQuestion s = true →
        run_heuristics s =
          some { intent := .small_talk, rationale := some "Short question likely chit-chat." })
    ∧ (∀ s, badPatternsMatch s = false → smallTalkPatternsMatch s = false →
        memoryWritePatternsMatch s = false → searchPatternsMatch s = false →
        ((extract_symbol s).isSome && financeKeywordsMatch s) = false →
        shortQuestion s = false →
        run_heuristics s = none)
    ∧ (∀ env mn, classify_intent env "hello there" mn =
        (.ok { intent := .small_talk, rationale := some "Greeting detected." }, [])) := by
  refine ⟨?_, ?_, ?_, ?_, ?_, ?_, ?_, ?_⟩
  · intro s h1; simp [run_heuristics, h1]
  · intro s h1 h2; simp [run_heuristics, h1, h2]
  · intro s h1 h2 h3; simp [run_heuristics, h1, h2, h3]
  · intro s h1 h2 h3 h4; simp [run_heuristics, h1, h2, h3, h4]
  · intro s sym h1 h2 h3 h4 hx hk; simp [run_heuristics, h1, h2, h3, h4, hx, hk]
  · intro s h1 h2 h3 h4 hf h6; simp [run_heuristics, h1, h2, h3, h4, hf, h6]
  · intro s h1 h2 h3 h4 hf h6; simp [run_heuristics, h1, h2, h3, h4, hf, h6]
  · intro env mn; rfl

theorem intent_heuristics_priority_order_witness :
    badPatternsMatch "hello there" = false
    ∧ smallTalkPatternsMatch "hello there" = true
    ∧ run_heuristics "hello there" =
        some { intent := .small_talk, rationale := some "Greeting detected." } :=
  ⟨by decide, by decide,
   intent_heuristics_priority_order.2.1 "hello there" (by decide) (by decide)⟩

/-- C5 counterexample: the fence-stripping is not the claimed case-insensitive
leading-tag drop.  On `"```JSON 42 ```"` the code leaves the uppercase `JSON`
tag in place, while the claimed parsing (`extract_json_claimed`, written from
the claim wording) removes it. -/
theorem extract_json_case_sensitivity_cex :
    extract_json "```JSON 42 ```" = "JSON 42"
    ∧ extract_json_claimed "```JSON 42 ```" = "42"
    ∧ extract_json "```JSON 42 ```" ≠ extract_json_claimed "```JSON 42 ```" := by
  exact ⟨rfl, rfl, by decide⟩

/-- C5 (amended): before JSON decoding the parser takes the text between the
first and last fence markers when two distinct ones are present, deletes the
first occurrence of the lowercase substring `"json"` anywhere in it
(case-sensitively), strips whitespace, and falls back to the unchanged text
when no fence marker occurs or the remainder is empty. -/
theorem extract_json_fence_handling :
    (∀ s, strFindIdx s.data tripleBacktick = none → extract_json s = s)
    ∧ extract_json "```json 42 ```" = "42"
    ∧ extract_json "```JSON 42 ```" = "JSON 42"
    ∧ extract_json "``` x json y ```" = "x  y"
    ∧ extract_json "``````" = "``````" := by
  refine ⟨?_, rfl, rfl, rfl, rfl⟩
  intro s h
  simp [extract_json, h]

theorem extract_json_fence_handling_witness :
    strFindIdx "hello".data tripleBacktick = none
    ∧ extract_json "hello" = "hello" :=
  ⟨by decide, extract_json_fence_handling.1 "hello" (by decide)⟩

/-- C6 (code bug): when the classifier model returns valid JSON that is not an
object — here `"[1, 2]"` — `json.loads` succeeds, and `parsed.get("intent")`
(which sits outside the `try` that only catches `JSONDecodeError`) raises an
uncaught `AttributeError` that propagates out of `classify_intent`, instead of
the stage degrading to inconclusive and the caller defaulting to `qa`. -/
theorem classifier_nondict_output_raises :
    run_llm_classifier { classifierOutput := some "[1, 2]" }
        "explain the deployment process" "mistral"
      = (.error .attributeError, [.classifier])
    ∧ classify_intent { classifierOutput := some "[1, 2]" }
        "explain the deployment process" "mistral"
      = (.error .attributeError, [.classifier]) :=
  ⟨rfl, rfl⟩

/-- C7 counterexample: the moderation fields are not extracted by a
line-prefix pattern.  `re.search` finds `verdict:` in the middle of a line, so
on the output `"the model says verdict: block"` the code produces verdict
`block`, while a line-prefix extraction (`extract_field_line_anchored`, written
from the claim wording) finds no verdict field at all (and would default to
`allow`). -/
theorem moderation_field_pattern_not_lineprefix_cex :
    (run_llm_moderation { moderationOutput := some "the model says verdict: block" }
        "q" "mistral").1
      = some { verdict := .block, severity := .low, categories := [], rationale := none }
    ∧ extract_field_line_anchored "the model says verdict: block" "verdict" none = none
    ∧ SafetyVerdict.block ≠ SafetyVerdict.allow :=
  ⟨rfl, rfl, by decide⟩

theorem extract_field_none_default (t f : String) (d : Option String)
    (h : extract_field t f none = none) : extract_field t f d = d := by
  unfold extract_field at h ⊢
  cases hc : reCapture (rcat [rlit f, rwsStar, .lit ':', rwsStar,
      .grp (.seq rdot rdotStar)]) t
  · rfl
  · rw [hc] at h
    simp at h

/-- C7 (amended): each of the four moderation fields is extracted
independently by a case-insensitive field-name/colon/rest-of-line pattern
searched anywhere in the output, and a missing field falls back to its
type-specific default — verdict to `allow`, severity to `low`, categories to
empty, rationale to none — so partial or malformed output still yields a
`ModerationResult` rather than a parse failure. -/
theorem moderation_missing_fields_default (env : Env) (out u m : String)
    (h1 : env.moderationLLMAvailable = true) (h2 : env.moderationOutput = some out) :
    (run_llm_moderation env u m).1.isSome = true
    ∧ (extract_field (pyStrip out) "verdict" none = none →
        (run_llm_moderation env u m).1.map ModerationResult.verdict =
          some SafetyVerdict.allow)
    ∧ (extract_field (pyStrip out) "severity" none = none →
        (run_llm_moderation env u m).1.map ModerationResult.severity =
          some SafetySeverity.low)
    ∧ (extract_field (pyStrip out) "categories" none = none →
        (run_llm_moderation env u m).1.map ModerationResult.categories = some [])
    ∧ (extract_field (pyStrip out) "rationale" none = none →
        (run_llm_moderation env u m).1.map ModerationResult.rationale = some none) := by
  simp only [run_llm_moderation, h1, h2, if_true]
  refine ⟨rfl, ?_, ?_, ?_, ?_⟩
  · intro h
    rw [extract_field_none_default _ _ (some "") h]
    rfl
  · intro h
    rw [extract_field_none_default _ _ (some "low") h]
    rfl
  · intro h
    rw [extract_field_none_default _ _ (some "") h]
    rfl
  · intro h
    rw [h]
    rfl

theorem moderation_missing_fields_default_witness :
    (run_llm_moderation { moderationOutput := some "ok" } "q" "mistral").1.map
      ModerationResult.verdict = some SafetyVerdict.allow :=
  (moderation_missing_fields_default { moderationOutput := some "ok" } "ok"
    "q" "mistral" rfl rfl).2.1 rfl

/-- C10: when the verdict or severity field of the moderation model output is present but
carries a value outside its enumeration, the stage does not fail: the
`ValueError` of the enum constructor is caught and the value is coerced to
the permissive default — an unrecognized verdict becomes `allow` (never
`block`) and an unrecognized severity becomes `low`. -/
theorem moderation_unknown_enum_values_coerced (env : Env) (out u m : String)
    (h1 : env.moderationLLMAvailable = true) (h2 : env.moderationOutput = some out) :
    (run_llm_moderation env u m).1.isSome = true
    ∧ (∀ v, extract_field (pyStrip out) "verdict" (some "") = some v →
        v ∉ (["allow", "warn", "block"] : List String) →
        (run_llm_moderation env u m).1.map ModerationResult.verdict =
          some SafetyVerdict.allow)
    ∧ (∀ w, extract_field (pyStrip out) "severity" (some "low") = some w →
        w ∉ (["low", "medium", "high"] : List String) →
        (run_llm_moderation env u m).1.map ModerationResult.severity =
          some SafetySeverity.low) := by
  simp only [run_llm_moderation, h1, h2, if_true]
  refine ⟨rfl, ?_, ?_⟩
  · intro v hv hvu
    rw [hv]
    have hne : v ≠ "allow" ∧ v ≠ "warn" ∧ v ≠ "block" := by simpa using hvu
    by_cases hve : v = ""
    · simp [hve, parseSafetyVerdict]
    · simp [hve, parseSafetyVerdict, hne.1, hne.2.1, hne.2.2]
  · intro w hw hwu
    rw [hw]
    have hne : w ≠ "low" ∧ w ≠ "medium" ∧ w ≠ "high" := by simpa using hwu
    by_cases hwe : w = ""
    · simp [hwe, parseSafetySeverity]
    · simp [hwe, parseSafetySeverity, hne.1, hne.2.1, hne.2.2]

theorem moderation_unknown_enum_values_coerced_witness :
    (run_llm_moderation { moderationOutput := some "verdict: maybe\nseverity: extreme" }
        "q" "mistral").1.map ModerationResult.verdict = some SafetyVerdict.allow :=
  (moderation_unknown_enum_values_coerced
    { moderationOutput := some "verdict: maybe\nseverity: extreme" }
    "verdict: maybe\nseverity: extreme" "q" "mistral" rfl rfl).2.1
    "maybe" rfl (by decide)

theorem lruGet_idem {K : Type} [DecidableEq K] (maxSize : Nat) (hmax : 0 < maxSize)
    (c : List (K × Nat)) (key : K) (f1 f2 : Nat) :
    lruGet maxSize (lruGet maxSize c key f1).2.1 key f2 =
      ((lruGet maxSize c key f1).1, (lruGet maxSize c key f1).2.1, false) := by
  unfold lruGet
  cases h : List.find? (fun e => decide (e.1 = key)) c with
  | some e =>
    have hp := List.find?_some h
    have he : e.1 = key := by simpa using hp
    simp only []
    rw [List.find?_cons_of_pos _ (by simp [he])]
    simp only [Prod.mk.injEq, true_and]
    rw [List.filter_cons_of_neg (by simp [he])]
    rw [List.filter_filter]
    simp
  | none =>
    have hnone := List.find?_eq_none.mp h
    simp only []
    obtain ⟨n, rfl⟩ : ∃ n, maxSize = n + 1 := ⟨maxSize - 1, by omega⟩
    rw [List.take_succ_cons]
    rw [List.find?_cons_of_pos _ (by simp)]
    simp only [Prod.mk.injEq, true_and]
    rw [List.filter_cons_of_neg (by simp)]
    rw [List.filter_eq_self.mpr]
    · simp
    · intro a ha
      have := hnone a (List.take_subset n c ha)
      simpa using this

theorem lruGet_length_le {K : Type} [DecidableEq K] (maxSize : Nat)
    (c : List (K × Nat)) (key : K) (f : Nat) (h : c.length ≤ maxSize) :
    (lruGet maxSize c key f).2.1.length ≤ maxSize := by
  unfold lruGet
  cases hf : List.find? (fun e => decide (e.1 = key)) c with
  | some e =>
    have hp := List.find?_some hf
    have he : e.1 = key := by simpa using hp
    have hmem := List.mem_of_find?_eq_some hf
    have hlt : (List.filter (fun e1 => decide ¬e1.1 = key) c).length < c.length :=
      List.length_filter_lt_length_iff_exists.mpr ⟨e, hmem, by simp [he]⟩
    simp only [List.length_cons]
    omega
  | none =>
    simp only [List.length_take]
    omega

theorem get_ollama_llm_hit_after (st st2 : LLMCacheState) (k : String) (t : ℚ)
    (n : Nat) (hc : st2.ollamaCache = (get_ollama_llm st k t n).2.ollamaCache) :
    get_ollama_llm st2 k t n = ((get_ollama_llm st k t n).1, st2) := by
  unfold get_ollama_llm at hc ⊢
  simp only [] at hc
  have h := lruGet_idem MAX_SIZE (by norm_num [MAX_SIZE]) st.ollamaCache (k, t, n)
    st.nextHandle st2.nextHandle
  rw [hc, h]
  simp only [if_neg (by simp : ¬(false = true))]
  rw [← hc]

/-- C8 counterexample: the retrieval-query engine is not cached.  Two
successive `get_query_engine` calls with the same key construct two distinct
engine handles rather than returning the identical existing one. -/
theorem query_engine_constructed_each_call_cex :
    (get_query_engine (get_query_engine ({} : LLMCacheState) "mistral").2 "mistral").1.1
      ≠ (get_query_engine ({} : LLMCacheState) "mistral").1.1 := by
  decide

/-- C8 (amended): the generation client (`get_ollama_llm`) and the
chat-capable client (`get_langchain_llm`) are cached per
(model, temperature, context-length) key with fixed capacity `MAX_SIZE = 4`
and least-recently-used eviction — a lookup whose key is cached returns the
existing handle with no new construction, and the caches never grow beyond 4
entries; the retrieval-query engine, by contrast, is constructed anew on
every call, sharing only its underlying cached generation client. -/
theorem llm_cache_hit_returns_existing_handle :
    (∀ (st : LLMCacheState) (k : String) (t : ℚ) (n : Nat) e,
        st.ollamaCache.find? (fun x => x.1 = (k, t, n)) = some e →
        (get_ollama_llm st k t n).1 = e.2
        ∧ (get_ollama_llm st k t n).2.nextHandle = st.nextHandle)
    ∧ (∀ (st : LLMCacheState) (k : String) (t : ℚ) (n : Nat) e,
        st.langchainCache.find? (fun x => x.1 = (k, t, n)) = some e →
        (get_langchain_llm st k t n).1 = e.2
        ∧ (get_langchain_llm st k t n).2.nextHandle = st.nextHandle)
    ∧ (∀ (st : LLMCacheState) (k : String) (t : ℚ) (n : Nat),
        st.ollamaCache.length ≤ MAX_SIZE →
        (get_ollama_llm st k t n).2.ollamaCache.length ≤ MAX_SIZE)
    ∧ (∀ (st : LLMCacheState) (k : String) (t : ℚ) (n : Nat),
        st.langchainCache.length ≤ MAX_SIZE →
        (get_langchain_llm st k t n).2.langchainCache.length ≤ MAX_SIZE)
    ∧ (∀ (st : LLMCacheState) (mn : String),
        (get_query_engine (get_query_engine st mn).2 mn).1.2
          = (get_query_engine st mn).1.2
        ∧ (get_query_engine (get_query_engine st mn).2 mn).1.1
          ≠ (get_query_engine st mn).1.1) := by
  refine ⟨?_, ?_, ?_, ?_, ?_⟩
  · intro st k t n e h
    unfold get_ollama_llm lruGet
    rw [h]
    simp
  · intro st k t n e h
    unfold get_langchain_llm lruGet
    rw [h]
    simp
  · intro st k t n h
    exact lruGet_length_le MAX_SIZE st.ollamaCache (k, t, n) st.nextHandle h
  · intro st k t n h
    exact lruGet_length_le MAX_SIZE st.langchainCache (k, t, n) st.nextHandle h
  · intro st mn
    have hsecond := get_ollama_llm_hit_after st
      { ollamaCache := (get_ollama_llm st mn 0 CONTEXT_LENGTH).2.ollamaCache,
        langchainCache := (get_ollama_llm st mn 0 CONTEXT_LENGTH).2.langchainCache,
        nextHandle := (get_ollama_llm st mn 0 CONTEXT_LENGTH).2.nextHandle + 1 }
      mn 0 CONTEXT_LENGTH rfl
    constructor
    · simp only [get_query_engine]
      rw [hsecond]
    · simp only [get_query_engine]
      rw [hsecond]
      exact Nat.succ_ne_self _

theorem llm_cache_hit_returns_existing_handle_witness :
    (get_ollama_llm { ollamaCache := [(("mistral", 0, 2048), 7)], nextHandle := 9 }
        "mistral" 0 2048).1 = 7
    ∧ (get_ollama_llm { ollamaCache := [(("mistral", 0, 2048), 7)], nextHandle := 9 }
        "mistral" 0 2048).2.nextHandle = 9 :=
  llm_cache_hit_returns_existing_handle.1
    { ollamaCache := [(("mistral", 0, 2048), 7)], nextHandle := 9 }
    "mistral" 0 2048 (("mistral", 0, 2048), 7) rfl

end RagDemo







